import Mathlib

/-!
# Font Metrics Inspector

A shallow embedding of `src/font-metrics.js` (class `FontMetricsInspector`) and the
properties its specification states about it.

Modelling conventions

* JavaScript numbers are exact rationals (`ℚ`); the result of `parseInt` is an `Int`.
  `NaN` and the infinities are outside the model.
* A DOM element is a record of the properties the program touches. A lookup that yields
  `null` is `none`; reading a property of `null` throws a `TypeError`, which is
  `Except.error Error.typeError`.
* The 2D drawing context is a record of its style state, its current path and the display
  list of what has been painted so far.
* The host (document lookups, text measurement, number parsing) is the record `Env`.
* Every method that acts on the inspector object appends its name to `Inspector.trace`.
-/

namespace FontMetricsInspector

/-! ## Numbers and their text -/

/-- Number::toString on an integer value: decimal digits below 10^21, exponent notation
from there on (digits with the trailing zeros removed, a point after the first one, then
`e+` and the exponent). The exponent form is the host's for integers whose significant
digits fit a double, such as 10^21. -/
def numberToString (n : Int) : String :=
  let sign := if n < 0 then "-" else ""
  let digits := (Nat.repr n.natAbs).toList
  if n.natAbs < 10 ^ 21 then sign ++ String.mk digits
  else
    let e := "e+" ++ Nat.repr (digits.length - 1)
    match (digits.reverse.dropWhile (fun c => c == '0')).reverse with
    | [] => sign ++ "0"
    | [d] => sign ++ String.mk [d] ++ e
    | d :: ds => sign ++ String.mk (d :: '.' :: ds) ++ e

/-- The integer `n` for which `n / 10^f - x` is closest to zero, the larger one on a tie
(`x` is non-negative where this is used). -/
def fixedDigits (x : ℚ) (f : Nat) : Nat :=
  (⌊x * 10 ^ f + 1 / 2⌋).toNat

/-- Number.prototype.toFixed(f) on a finite value. -/
def toFixed (x : ℚ) (f : Nat) : String :=
  let s := if x < 0 then "-" else ""
  let x := if x < 0 then -x else x
  if 10 ^ 21 ≤ x then s ++ numberToString ⌊x⌋
  else
    let m := (Nat.repr (fixedDigits x f)).toList
    let m :=
      if f ≠ 0 then
        let m := if m.length ≤ f then List.replicate (f + 1 - m.length) '0' ++ m else m
        let k := m.length
        m.take (k - f) ++ '.' :: m.drop (k - f)
      else m
    s ++ String.mk m

/-- One segment command of the current path. -/
inductive PathCmd
  | moveTo (x y : ℚ)
  | lineTo (x y : ℚ)
  deriving DecidableEq, Repr

/-- One entry of the display list of a drawing surface. -/
inductive Painted
  | clearRect (x y w h : ℚ)
  | stroke (path : List PathCmd) (strokeStyle : String) (lineWidth : ℚ) (lineDash : List ℚ)
  | fillText (text : String) (x y : ℚ) (font fillStyle textBaseline : String)
  deriving DecidableEq, Repr

/-- A CanvasRenderingContext2D: style state, current path, and what was painted. -/
structure Context2D where
  font : String
  textBaseline : String
  strokeStyle : String
  fillStyle : String
  lineWidth : ℚ
  lineDash : List ℚ
  path : List PathCmd
  painted : List Painted
  deriving DecidableEq, Repr

namespace Context2D

def clearRect (ctx : Context2D) (x y w h : ℚ) : Context2D :=
  { ctx with painted := ctx.painted ++ [Painted.clearRect x y w h] }

def beginPath (ctx : Context2D) : Context2D :=
  { ctx with path := [] }

def moveTo (ctx : Context2D) (x y : ℚ) : Context2D :=
  { ctx with path := ctx.path ++ [PathCmd.moveTo x y] }

def lineTo (ctx : Context2D) (x y : ℚ) : Context2D :=
  { ctx with path := ctx.path ++ [PathCmd.lineTo x y] }

def setLineDash (ctx : Context2D) (dash : List ℚ) : Context2D :=
  { ctx with lineDash := dash }

/-- Painting the current path with the current stroke style; an empty path paints nothing. -/
def stroke (ctx : Context2D) : Context2D :=
  if ctx.path = [] then ctx
  else { ctx with painted := ctx.painted ++
          [Painted.stroke ctx.path ctx.strokeStyle ctx.lineWidth ctx.lineDash] }

def fillText (ctx : Context2D) (text : String) (x y : ℚ) : Context2D :=
  { ctx with painted := ctx.painted ++
      [Painted.fillText text x y ctx.font ctx.fillStyle ctx.textBaseline] }

end Context2D

/-- TextMetrics, as far as the program reads it. -/
structure TextMetrics where
  actualBoundingBoxAscent : ℚ
  actualBoundingBoxDescent : ℚ
  deriving DecidableEq, Repr

/-- A DOMRect, as far as the program reads it. -/
structure Rect where
  left : ℚ
  top : ℚ
  width : ℚ
  height : ℚ
  deriving DecidableEq, Repr

/-! ## Elements, host and inspector state -/

/-- The handlers the program registers. -/
inductive Handler
  | sampleTextInput
  | fontFamilyChange
  | fontSizeInput
  | lineHeightInput
  | showGuidesChange
  | windowResize
  deriving DecidableEq, Repr

/-- The inline style properties the program assigns. `lineHeight` holds the number
assigned, `width` and `height` the number of `px` assigned (`none` while unset). -/
structure Style where
  fontSize : String
  lineHeight : Option ℚ
  fontFamily : String
  width : Option ℚ
  height : Option ℚ
  deriving DecidableEq, Repr

/-- A DOM element: the properties the program reads or writes. `boundingClientRect` is
what `getBoundingClientRect()` returns, `parentElement` is the bounding rectangle of the
parent (`none` for an element without parent), `context2d` is what `getContext('2d')`
returns (`none` for `null`). -/
structure Element where
  value : String
  checked : Bool
  textContent : String
  style : Style
  width : ℚ
  height : ℚ
  boundingClientRect : Rect
  parentElement : Option Rect
  context2d : Option Context2D
  listeners : List (String × Handler)
  deriving DecidableEq, Repr

/-- The host environment. `measureText font textBaseline text` is what `measureText(text)`
reports on a context whose font and baseline are the given ones; an assignment to `font`
or `textBaseline` holds as written. `createCanvas` is what
`document.createElement('canvas')` returns. -/
structure Env where
  getElementById : String → Option Element
  createCanvas : Element
  measureText : String → String → String → TextMetrics
  parseInt : String → Int
  parseFloat : String → ℚ

/-- The record stored in `this.metrics`. -/
structure Metrics where
  fontSize : Int
  lineHeight : ℚ
  fontFamily : String
  ascender : ℚ
  descender : ℚ
  capHeight : ℚ
  xHeight : ℚ
  baseline : ℚ
  deriving DecidableEq, Repr

/-- Methods that act on the inspector object. -/
inductive Call
  | init
  | setupEventListeners
  | resizeCanvas
  | updateMetrics
  | calculateFontMetrics
  | updateInfoDisplay
  | drawMetrics
  deriving DecidableEq, Repr

inductive Error
  | typeError
  deriving DecidableEq, Repr

/-- The fields of a `FontMetricsInspector` object. `metrics = none` is the initial `{}`.
`canvas` is not optional: the constructor throws on its second line when the lookup of
`metrics-canvas` yields `null`. -/
structure Inspector where
  canvas : Element
  ctx : Option Context2D
  textDisplay : Option Element
  textContent : Option Element
  sampleTextInput : Option Element
  fontFamilySelect : Option Element
  fontSizeRange : Option Element
  lineHeightRange : Option Element
  showGuidesCheckbox : Option Element
  fontSizeValue : Option Element
  lineHeightValue : Option Element
  infoFontSize : Option Element
  infoLineHeight : Option Element
  infoBaseline : Option Element
  infoXHeight : Option Element
  infoCapHeight : Option Element
  infoAscender : Option Element
  infoDescender : Option Element
  metrics : Option Metrics
  showGuides : Bool
  windowListeners : List (String × Handler)
  trace : List Call
  deriving DecidableEq, Repr

/-- Reading a property of a possibly-null reference. -/
def deref {α : Type} (o : Option α) : Except Error α :=
  match o with
  | some a => Except.ok a
  | none => Except.error Error.typeError

def enter (s : Inspector) (c : Call) : Inspector :=
  { s with trace := s.trace ++ [c] }

/-! ## Measuring -/

/-- Source: `measureCapHeight(ctx, fontSize, fontFamily)`. Returns the context as left
behind together with the value returned. -/
def measureCapHeight (env : Env) (ctx : Context2D) (fontSize : Int) (fontFamily : String) :
    Context2D × ℚ :=
  let ctx := { ctx with font := numberToString fontSize ++ "px " ++ fontFamily }
  let ctx := { ctx with textBaseline := "alphabetic" }
  let metrics := env.measureText ctx.font ctx.textBaseline "H"
  (ctx, metrics.actualBoundingBoxAscent)

/-- Source: `measureXHeight(ctx, fontSize, fontFamily)`. -/
def measureXHeight (env : Env) (ctx : Context2D) (fontSize : Int) (fontFamily : String) :
    Context2D × ℚ :=
  let ctx := { ctx with font := numberToString fontSize ++ "px " ++ fontFamily }
  let ctx := { ctx with textBaseline := "alphabetic" }
  let metrics := env.measureText ctx.font ctx.textBaseline "x"
  (ctx, metrics.actualBoundingBoxAscent)

/-- Source: `calculateFontMetrics(fontSize, lineHeight, fontFamily)`. -/
def calculateFontMetrics (env : Env) (s : Inspector) (fontSize : Int) (lineHeight : ℚ)
    (fontFamily : String) : Except Error Inspector := do
  let s := enter s Call.calculateFontMetrics
  let TEMP_CANVAS_SIZE : ℚ := 500
  let tempCanvas := env.createCanvas
  let tempCtx := tempCanvas.context2d
  let _tempCanvas := { tempCanvas with width := TEMP_CANVAS_SIZE, height := TEMP_CANVAS_SIZE }
  let tempCtx ← deref tempCtx
  let tempCtx := { tempCtx with font := numberToString fontSize ++ "px " ++ fontFamily }
  let tempCtx := { tempCtx with textBaseline := "alphabetic" }
  let textMetrics := env.measureText tempCtx.font tempCtx.textBaseline "Hxgpqy"
  let _actualHeight := textMetrics.actualBoundingBoxAscent + textMetrics.actualBoundingBoxDescent
  let lineHeightPx := (fontSize : ℚ) * lineHeight
  let (tempCtx, capHeight) := measureCapHeight env tempCtx fontSize fontFamily
  let (_, xHeight) := measureXHeight env tempCtx fontSize fontFamily
  let metrics : Metrics :=
    { fontSize := fontSize
      lineHeight := lineHeightPx
      fontFamily := fontFamily
      ascender := textMetrics.actualBoundingBoxAscent
      descender := textMetrics.actualBoundingBoxDescent
      capHeight := capHeight
      xHeight := xHeight
      baseline := 0 }
  pure { s with metrics := some metrics }

/-! ## The info panel -/

/-- Assignment to `textContent` of a possibly-null element reference. -/
def setTextContent (e : Option Element) (text : String) : Except Error (Option Element) := do
  let e ← deref e
  pure (some { e with textContent := text })

/-- Source: `updateInfoDisplay()`. On the initial `{}` the second statement calls
`toFixed` on `undefined`, a TypeError. -/
def updateInfoDisplay (s : Inspector) : Except Error Inspector := do
  let s := enter s Call.updateInfoDisplay
  match s.metrics with
  | none => throw Error.typeError
  | some metrics =>
    let infoFontSize ← setTextContent s.infoFontSize (numberToString metrics.fontSize ++ "px")
    let infoLineHeight ← setTextContent s.infoLineHeight (toFixed metrics.lineHeight 1 ++ "px")
    let infoBaseline ← setTextContent s.infoBaseline "0px (reference)"
    let infoXHeight ← setTextContent s.infoXHeight (toFixed metrics.xHeight 1 ++ "px")
    let infoCapHeight ← setTextContent s.infoCapHeight (toFixed metrics.capHeight 1 ++ "px")
    let infoAscender ← setTextContent s.infoAscender (toFixed metrics.ascender 1 ++ "px")
    let infoDescender ← setTextContent s.infoDescender (toFixed metrics.descender 1 ++ "px")
    pure { s with
      infoFontSize := infoFontSize
      infoLineHeight := infoLineHeight
      infoBaseline := infoBaseline
      infoXHeight := infoXHeight
      infoCapHeight := infoCapHeight
      infoAscender := infoAscender
      infoDescender := infoDescender }

/-! ## Drawing -/

/-- Source: `drawLine(x, y, width, color, lineWidth = 2, dash = [])`, on `this.ctx`. -/
def drawLine (ctx : Context2D) (x y width : ℚ) (color : String) (lineWidth : ℚ)
    (dash : List ℚ) : Context2D :=
  let ctx := ctx.beginPath
  let ctx := { ctx with strokeStyle := color }
  let ctx := { ctx with lineWidth := lineWidth }
  let ctx := ctx.setLineDash dash
  let ctx := ctx.moveTo x y
  let ctx := ctx.lineTo (x + width) y
  let ctx := ctx.stroke
  ctx.setLineDash []

/-- Source: `drawLabel(text, x, y, color)`, on `this.ctx`. -/
def drawLabel (ctx : Context2D) (text : String) (x y : ℚ) (color : String) : Context2D :=
  let ctx := { ctx with font := "12px sans-serif" }
  let ctx := { ctx with fillStyle := color }
  let ctx := { ctx with textBaseline := "middle" }
  ctx.fillText text x y

/-- Variant of `drawLine` for a `y` that is not a number: the context ignores `moveTo` and `lineTo`,
so the path stays empty. -/
def drawLineNaN (ctx : Context2D) (color : String) (lineWidth : ℚ) (dash : List ℚ) :
    Context2D :=
  let ctx := ctx.beginPath
  let ctx := { ctx with strokeStyle := color }
  let ctx := { ctx with lineWidth := lineWidth }
  let ctx := ctx.setLineDash dash
  let ctx := ctx.stroke
  ctx.setLineDash []

/-- Variant of `drawLabel` for a `y` that is not a number: the context ignores `fillText`. -/
def drawLabelNaN (ctx : Context2D) (color : String) : Context2D :=
  let ctx := { ctx with font := "12px sans-serif" }
  let ctx := { ctx with fillStyle := color }
  { ctx with textBaseline := "middle" }

/-- Source: `drawMetrics()`. While `this.metrics` is still `{}` every coordinate derived
from it is not a number; no call path reaches that branch, `updateMetrics` runs first. -/
def drawMetrics (s : Inspector) : Except Error Inspector := do
  let s := enter s Call.drawMetrics
  let ctx ← deref s.ctx
  let ctx := ctx.clearRect 0 0 s.canvas.width s.canvas.height
  let s := { s with ctx := some ctx }
  if !s.showGuides then
    return s
  let textRect := (← deref s.textContent).boundingClientRect
  let parentRect ← deref s.canvas.parentElement
  let offsetX := textRect.left - parentRect.left
  let offsetY := textRect.top - parentRect.top
  match s.metrics with
  | none =>
    let lineTop := offsetY
    let ctx := drawLine ctx offsetX lineTop textRect.width "#95a5a6" 1 [5, 5]
    let ctx := drawLineNaN ctx "#95a5a6" 1 [5, 5]
    let ctx := drawLineNaN ctx "#9b59b6" 2 []
    let ctx := drawLineNaN ctx "#27ae60" 2 []
    let ctx := drawLineNaN ctx "#3498db" 2 []
    let ctx := drawLineNaN ctx "#e74c3c" 3 []
    let ctx := drawLineNaN ctx "#f39c12" 2 []
    let ctx := drawLabelNaN ctx "#9b59b6"
    let ctx := drawLabelNaN ctx "#27ae60"
    let ctx := drawLabelNaN ctx "#3498db"
    let ctx := drawLabelNaN ctx "#e74c3c"
    let ctx := drawLabelNaN ctx "#f39c12"
    pure { s with ctx := some ctx }
  | some metrics =>
    let baselineY := offsetY + metrics.ascender
    let lineTop := offsetY
    let lineBottom := offsetY + metrics.lineHeight
    let ctx := drawLine ctx offsetX lineTop textRect.width "#95a5a6" 1 [5, 5]
    let ctx := drawLine ctx offsetX lineBottom textRect.width "#95a5a6" 1 [5, 5]
    let ctx := drawLine ctx offsetX (baselineY - metrics.ascender) textRect.width "#9b59b6" 2 []
    let ctx := drawLine ctx offsetX (baselineY - metrics.capHeight) textRect.width "#27ae60" 2 []
    let ctx := drawLine ctx offsetX (baselineY - metrics.xHeight) textRect.width "#3498db" 2 []
    let ctx := drawLine ctx offsetX baselineY textRect.width "#e74c3c" 3 []
    let ctx := drawLine ctx offsetX (baselineY + metrics.descender) textRect.width "#f39c12" 2 []
    let ctx := drawLabel ctx "Ascender" (offsetX + textRect.width + 10)
      (baselineY - metrics.ascender) "#9b59b6"
    let ctx := drawLabel ctx "Cap Height" (offsetX + textRect.width + 10)
      (baselineY - metrics.capHeight) "#27ae60"
    let ctx := drawLabel ctx "X-Height" (offsetX + textRect.width + 10)
      (baselineY - metrics.xHeight) "#3498db"
    let ctx := drawLabel ctx "Baseline" (offsetX + textRect.width + 10) baselineY "#e74c3c"
    let ctx := drawLabel ctx "Descender" (offsetX + textRect.width + 10)
      (baselineY + metrics.descender) "#f39c12"
    pure { s with ctx := some ctx }

/-! ## The controller -/

/-- Source: `resizeCanvas()`. Assignments to the canvas are plain field updates. -/
def resizeCanvas (s : Inspector) : Except Error Inspector := do
  let s := enter s Call.resizeCanvas
  let textDisplay ← deref s.textDisplay
  let _rect := textDisplay.boundingClientRect
  let parentRect ← deref textDisplay.parentElement
  let canvas := { s.canvas with width := parentRect.width }
  let canvas := { canvas with height := parentRect.height }
  let canvas := { canvas with style := { canvas.style with width := some parentRect.width } }
  let canvas := { canvas with style := { canvas.style with height := some parentRect.height } }
  pure { s with canvas := canvas }

/-- Source: `updateMetrics()`. -/
def updateMetrics (env : Env) (s : Inspector) : Except Error Inspector := do
  let s := enter s Call.updateMetrics
  let fontSize := env.parseInt (← deref s.fontSizeRange).value
  let lineHeight := env.parseFloat (← deref s.lineHeightRange).value
  let fontFamily := (← deref s.fontFamilySelect).value
  let textContent ← deref s.textContent
  let textContent := { textContent with
    style := { textContent.style with fontSize := numberToString fontSize ++ "px" } }
  let textContent := { textContent with
    style := { textContent.style with lineHeight := some lineHeight } }
  let textContent := { textContent with
    style := { textContent.style with fontFamily := fontFamily } }
  let s := { s with textContent := some textContent }
  let s ← calculateFontMetrics env s fontSize lineHeight fontFamily
  let s ← updateInfoDisplay s
  let s ← resizeCanvas s
  drawMetrics s

/-- The body of the handler registered under the given name; `windowResize` is the one
`init` registers, the others are those of `setupEventListeners`. -/
def runHandler (env : Env) (h : Handler) (s : Inspector) : Except Error Inspector :=
  match h with
  | Handler.sampleTextInput => do
    let textContent ← deref s.textContent
    let value := (← deref s.sampleTextInput).value
    let text := if value = "" then "Typography Metrics" else value
    let s := { s with textContent := some { textContent with textContent := text } }
    updateMetrics env s
  | Handler.fontFamilyChange =>
    updateMetrics env s
  | Handler.fontSizeInput => do
    let fontSizeValue ← deref s.fontSizeValue
    let value := (← deref s.fontSizeRange).value
    let s := { s with fontSizeValue := some { fontSizeValue with textContent := value } }
    updateMetrics env s
  | Handler.lineHeightInput => do
    let lineHeightValue ← deref s.lineHeightValue
    let value := (← deref s.lineHeightRange).value
    let s := { s with lineHeightValue := some { lineHeightValue with textContent := value } }
    updateMetrics env s
  | Handler.showGuidesChange => do
    let s := { s with showGuides := (← deref s.showGuidesCheckbox).checked }
    drawMetrics s
  | Handler.windowResize => do
    let s ← resizeCanvas s
    drawMetrics s

/-- Calling `addEventListener(type, handler)` on a possibly-null element reference. -/
def addEventListener (e : Option Element) (type : String) (h : Handler) :
    Except Error (Option Element) := do
  let e ← deref e
  pure (some { e with listeners := e.listeners ++ [(type, h)] })

/-- Source: `setupEventListeners()`. -/
def setupEventListeners (s : Inspector) : Except Error Inspector := do
  let s := enter s Call.setupEventListeners
  let sampleTextInput ← addEventListener s.sampleTextInput "input" Handler.sampleTextInput
  let s := { s with sampleTextInput := sampleTextInput }
  let fontFamilySelect ← addEventListener s.fontFamilySelect "change" Handler.fontFamilyChange
  let s := { s with fontFamilySelect := fontFamilySelect }
  let fontSizeRange ← addEventListener s.fontSizeRange "input" Handler.fontSizeInput
  let s := { s with fontSizeRange := fontSizeRange }
  let lineHeightRange ← addEventListener s.lineHeightRange "input" Handler.lineHeightInput
  let s := { s with lineHeightRange := lineHeightRange }
  let showGuidesCheckbox ←
    addEventListener s.showGuidesCheckbox "change" Handler.showGuidesChange
  pure { s with showGuidesCheckbox := showGuidesCheckbox }

/-- Source: `init()`. -/
def init (env : Env) (s : Inspector) : Except Error Inspector := do
  let s := enter s Call.init
  let s ← setupEventListeners s
  let s ← updateMetrics env s
  let s ← resizeCanvas s
  pure { s with windowListeners := s.windowListeners ++ [("resize", Handler.windowResize)] }

/-- Source: `constructor()`, that is `new FontMetricsInspector()`. -/
def constructor (env : Env) : Except Error Inspector := do
  let canvas ← deref (env.getElementById "metrics-canvas")
  let ctx := canvas.context2d
  let s : Inspector :=
    { canvas := canvas
      ctx := ctx
      textDisplay := env.getElementById "text-display"
      textContent := env.getElementById "text-content"
      sampleTextInput := env.getElementById "sample-text"
      fontFamilySelect := env.getElementById "font-family"
      fontSizeRange := env.getElementById "font-size"
      lineHeightRange := env.getElementById "line-height"
      showGuidesCheckbox := env.getElementById "show-guides"
      fontSizeValue := env.getElementById "font-size-value"
      lineHeightValue := env.getElementById "line-height-value"
      infoFontSize := env.getElementById "info-font-size"
      infoLineHeight := env.getElementById "info-line-height"
      infoBaseline := env.getElementById "info-baseline"
      infoXHeight := env.getElementById "info-xheight"
      infoCapHeight := env.getElementById "info-capheight"
      infoAscender := env.getElementById "info-ascender"
      infoDescender := env.getElementById "info-descender"
      metrics := none
      showGuides := true
      windowListeners := []
      trace := [] }
  init env s

/-! ## Reading a display list -/

namespace Painted

def isStroke : Painted → Bool
  | stroke _ _ _ _ => true
  | _ => false

def isLabel : Painted → Bool
  | fillText _ _ _ _ _ _ => true
  | _ => false

/-- The `y` and the colour of a stroke whose path is one horizontal segment. -/
def horizontalStroke? : Painted → Option (ℚ × String)
  | stroke [PathCmd.moveTo _ y, PathCmd.lineTo _ y'] color _ _ =>
    if y = y' then some (y, color) else none
  | _ => none

/-- The text, the `y` and the colour of a label. -/
def label? : Painted → Option (String × ℚ × String)
  | fillText text _ y _ color _ => some (text, y, color)
  | _ => none

end Painted

def horizontalStrokes (l : List Painted) : List (ℚ × String) :=
  l.filterMap Painted.horizontalStroke?

def labels (l : List Painted) : List (String × ℚ × String) :=
  l.filterMap Painted.label?

/-- What `drawMetrics` paints after the clear when the guides are on: seven strokes, then
five labels. -/
def guidesPainted (offsetX offsetY width : ℚ) (m : Metrics) : List Painted :=
  let baselineY := offsetY + m.ascender
  let line (y : ℚ) (color : String) (lineWidth : ℚ) (dash : List ℚ) : Painted :=
    Painted.stroke [PathCmd.moveTo offsetX y, PathCmd.lineTo (offsetX + width) y]
      color lineWidth dash
  let label (text : String) (y : ℚ) (color : String) : Painted :=
    Painted.fillText text (offsetX + width + 10) y "12px sans-serif" color "middle"
  [ line offsetY "#95a5a6" 1 [5, 5],
    line (offsetY + m.lineHeight) "#95a5a6" 1 [5, 5],
    line (baselineY - m.ascender) "#9b59b6" 2 [],
    line (baselineY - m.capHeight) "#27ae60" 2 [],
    line (baselineY - m.xHeight) "#3498db" 2 [],
    line baselineY "#e74c3c" 3 [],
    line (baselineY + m.descender) "#f39c12" 2 [],
    label "Ascender" (baselineY - m.ascender) "#9b59b6",
    label "Cap Height" (baselineY - m.capHeight) "#27ae60",
    label "X-Height" (baselineY - m.xHeight) "#3498db",
    label "Baseline" baselineY "#e74c3c",
    label "Descender" (baselineY + m.descender) "#f39c12" ]

/-! ## A sample page -/

def freshContext : Context2D :=
  { font := "10px sans-serif"
    textBaseline := "alphabetic"
    strokeStyle := "#000000"
    fillStyle := "#000000"
    lineWidth := 1
    lineDash := []
    path := []
    painted := [] }

def blankElement : Element :=
  { value := ""
    checked := false
    textContent := ""
    style := { fontSize := "", lineHeight := none, fontFamily := "", width := none, height := none }
    width := 0
    height := 0
    boundingClientRect := { left := 0, top := 0, width := 0, height := 0 }
    parentElement := some { left := 0, top := 0, width := 800, height := 200 }
    context2d := none
    listeners := [] }

def sampleCanvas : Element :=
  { blankElement with width := 300, height := 150, context2d := some freshContext }

def sampleTextContent : Element :=
  { blankElement with
    textContent := "Typography Metrics"
    boundingClientRect := { left := 40, top := 60, width := 300, height := 48 } }

/-- The seventeen elements the constructor looks up, each present. -/
def samplePage (id : String) : Option Element :=
  if id = "metrics-canvas" then some sampleCanvas
  else if id = "text-display" then
    some { blankElement with
      boundingClientRect := { left := 20, top := 20, width := 760, height := 160 } }
  else if id = "text-content" then some sampleTextContent
  else if id = "sample-text" then some { blankElement with value := "Typography Metrics" }
  else if id = "font-family" then some { blankElement with value := "serif" }
  else if id = "font-size" then some { blankElement with value := "32" }
  else if id = "line-height" then some { blankElement with value := "1.5" }
  else if id = "show-guides" then some { blankElement with checked := true }
  else if id ∈ ["font-size-value", "line-height-value", "info-font-size", "info-line-height",
      "info-baseline", "info-xheight", "info-capheight", "info-ascender", "info-descender"]
    then some blankElement
  else none

/-- A measurer that reports fixed boxes for the three probe strings. -/
def sampleMeasure (_font _textBaseline text : String) : TextMetrics :=
  if text = "H" then { actualBoundingBoxAscent := 116 / 10, actualBoundingBoxDescent := 0 }
  else if text = "x" then { actualBoundingBoxAscent := 82 / 10, actualBoundingBoxDescent := 0 }
  else { actualBoundingBoxAscent := 123 / 10, actualBoundingBoxDescent := 34 / 10 }

def sampleEnv : Env :=
  { getElementById := samplePage
    createCanvas := sampleCanvas
    measureText := sampleMeasure
    parseInt := fun v => if v = "32" then 32 else 16
    parseFloat := fun v => if v = "1.5" then 3 / 2 else 1 }

/-- The host with one element taken out of the document. -/
def Env.without (env : Env) (id : String) : Env :=
  { env with getElementById := fun j => if j = id then none else env.getElementById j }

/-- The metrics record of the specification's formatting example. -/
def sampleMetrics : Metrics :=
  { fontSize := 16
    lineHeight := 24
    fontFamily := "serif"
    ascender := 123 / 10
    descender := 34 / 10
    capHeight := 116 / 10
    xHeight := 82 / 10
    baseline := 0 }

/-- An inspector bound to the sample page, holding `sampleMetrics`. -/
def sampleInspector : Inspector :=
  { canvas := sampleCanvas
    ctx := some freshContext
    textDisplay := samplePage "text-display"
    textContent := some sampleTextContent
    sampleTextInput := samplePage "sample-text"
    fontFamilySelect := samplePage "font-family"
    fontSizeRange := samplePage "font-size"
    lineHeightRange := samplePage "line-height"
    showGuidesCheckbox := some { blankElement with checked := true }
    fontSizeValue := some blankElement
    lineHeightValue := some blankElement
    infoFontSize := some blankElement
    infoLineHeight := some blankElement
    infoBaseline := some blankElement
    infoXHeight := some blankElement
    infoCapHeight := some blankElement
    infoAscender := some blankElement
    infoDescender := some blankElement
    metrics := some sampleMetrics
    showGuides := true
    windowListeners := []
    trace := [] }

theorem drawLine_painted (ctx : Context2D) (x y width : ℚ) (color : String) (lineWidth : ℚ)
    (dash : List ℚ) :
    (drawLine ctx x y width color lineWidth dash).painted = ctx.painted ++
      [Painted.stroke [PathCmd.moveTo x y, PathCmd.lineTo (x + width) y] color lineWidth dash]
    := by
  simp [drawLine, Context2D.beginPath, Context2D.setLineDash, Context2D.moveTo,
    Context2D.lineTo, Context2D.stroke]

theorem drawLabel_painted (ctx : Context2D) (text : String) (x y : ℚ) (color : String) :
    (drawLabel ctx text x y color).painted = ctx.painted ++
      [Painted.fillText text x y "12px sans-serif" color "middle"] := by
  simp [drawLabel, Context2D.fillText]

/-- With the guides off, `drawMetrics` returns after the clear. -/
theorem drawMetrics_clear_only (s : Inspector) (c : Context2D) (hg : s.showGuides = false)
    (hc : s.ctx = some c) :
    drawMetrics s = Except.ok { enter s Call.drawMetrics with
      ctx := some (c.clearRect 0 0 s.canvas.width s.canvas.height) } := by
  simp [drawMetrics, deref, enter, hg, hc]

/-- With the guides on and everything it reads present, `drawMetrics` returns, and the
display list grows by the clear followed by `guidesPainted`. -/
theorem drawMetrics_painted (s : Inspector) (c : Context2D) (t : Element) (p : Rect)
    (m : Metrics) (hg : s.showGuides = true) (hc : s.ctx = some c)
    (ht : s.textContent = some t) (hp : s.canvas.parentElement = some p)
    (hm : s.metrics = some m) :
    ∃ c', drawMetrics s = Except.ok { enter s Call.drawMetrics with ctx := some c' } ∧
      c'.painted = c.painted ++
        Painted.clearRect 0 0 s.canvas.width s.canvas.height ::
          guidesPainted (t.boundingClientRect.left - p.left) (t.boundingClientRect.top - p.top)
            t.boundingClientRect.width m := by
  simp [drawMetrics, deref, enter, hg, hc, ht, hp, hm, drawLine_painted, drawLabel_painted,
    guidesPainted, Context2D.clearRect, bind, Except.bind, pure, Except.pure]

/-- With a measuring context at hand, `calculateFontMetrics` returns, and this is the
record it stores. -/
theorem calculateFontMetrics_ok (env : Env) (s : Inspector) (fontSize : Int)
    (lineHeight : ℚ) (fontFamily : String) (tempCtx : Context2D)
    (h : env.createCanvas.context2d = some tempCtx) :
    calculateFontMetrics env s fontSize lineHeight fontFamily =
      Except.ok { enter s Call.calculateFontMetrics with
        metrics := some {
          fontSize := fontSize
          lineHeight := (fontSize : ℚ) * lineHeight
          fontFamily := fontFamily
          ascender := (env.measureText (numberToString fontSize ++ "px " ++ fontFamily)
            "alphabetic" "Hxgpqy").actualBoundingBoxAscent
          descender := (env.measureText (numberToString fontSize ++ "px " ++ fontFamily)
            "alphabetic" "Hxgpqy").actualBoundingBoxDescent
          capHeight := (env.measureText (numberToString fontSize ++ "px " ++ fontFamily)
            "alphabetic" "H").actualBoundingBoxAscent
          xHeight := (env.measureText (numberToString fontSize ++ "px " ++ fontFamily)
            "alphabetic" "x").actualBoundingBoxAscent
          baseline := 0 } } := by
  simp [calculateFontMetrics, deref, h, measureCapHeight, measureXHeight, enter, bind,
    Except.bind, pure, Except.pure]

theorem bind_eq_ok {α β : Type} (x : Except Error α) (f : α → Except Error β) (b : β) :
    (x >>= f) = Except.ok b ↔ ∃ a, x = Except.ok a ∧ f a = Except.ok b := by
  cases x <;> simp [bind, Except.bind]

theorem deref_eq_ok {α : Type} (o : Option α) (a : α) :
    deref o = Except.ok a ↔ o = some a := by
  cases o <;> simp [deref]

theorem error_of_not_ok {α : Type} (x : Except Error α) (h : ∀ a, x ≠ Except.ok a) :
    x = Except.error Error.typeError := by
  cases x with
  | error e => cases e; rfl
  | ok a => exact absurd rfl (h a)

theorem drawMetrics_trace (s s' : Inspector) (h : drawMetrics s = Except.ok s') :
    s'.trace = s.trace ++ [Call.drawMetrics] := by
  unfold drawMetrics at h
  rcases hc : s.ctx with _ | c <;> rcases ht : s.textContent with _ | t <;>
    rcases hp : s.canvas.parentElement with _ | p <;> rcases hm : s.metrics with _ | m <;>
    rcases hg : s.showGuides <;>
    simp [hc, ht, hp, hm, hg, deref, enter, bind, Except.bind, pure, Except.pure] at h <;>
    subst h <;> rfl

theorem resizeCanvas_inv (s s' : Inspector) (h : resizeCanvas s = Except.ok s') :
    s.textDisplay.isSome ∧ s'.trace = s.trace ++ [Call.resizeCanvas] := by
  unfold resizeCanvas at h
  rcases ht : s.textDisplay with _ | t
  · simp [ht, deref, enter, bind, Except.bind] at h
  · rcases hp : t.parentElement with _ | p <;>
      simp [ht, hp, deref, enter, bind, Except.bind, pure, Except.pure] at h
    subst h
    exact ⟨rfl, rfl⟩

theorem calculateFontMetrics_inv (env : Env) (s s' : Inspector) (fontSize : Int)
    (lineHeight : ℚ) (fontFamily : String)
    (h : calculateFontMetrics env s fontSize lineHeight fontFamily = Except.ok s') :
    ∃ m, s' = { enter s Call.calculateFontMetrics with metrics := some m } := by
  unfold calculateFontMetrics at h
  rcases hc : env.createCanvas.context2d with _ | c <;>
    simp [hc, deref, bind, Except.bind, pure, Except.pure] at h
  exact ⟨_, h.symm⟩

theorem updateInfoDisplay_inv (s s' : Inspector) (h : updateInfoDisplay s = Except.ok s') :
    (s.infoFontSize.isSome ∧ s.infoLineHeight.isSome ∧ s.infoBaseline.isSome ∧
      s.infoXHeight.isSome ∧ s.infoCapHeight.isSome ∧ s.infoAscender.isSome ∧
      s.infoDescender.isSome) ∧
    s'.textDisplay = s.textDisplay ∧ s'.trace = s.trace ++ [Call.updateInfoDisplay] := by
  unfold updateInfoDisplay at h
  rcases hm : s.metrics with _ | m
  · simp [hm, enter, bind, Except.bind, throw, throwThe, MonadExceptOf.throw] at h
  · simp only [hm, enter, bind_eq_ok, setTextContent, deref_eq_ok, pure, Except.pure,
      Except.ok.injEq, exists_eq_right, exists_exists_and_eq_and] at h
    obtain ⟨e1, h1, e2, h2, e3, h3, e4, h4, e5, h5, e6, h6, e7, h7, rfl⟩ := h
    simp [h1, h2, h3, h4, h5, h6, h7]

theorem setupEventListeners_inv (s s' : Inspector)
    (h : setupEventListeners s = Except.ok s') :
    (s.sampleTextInput.isSome ∧ s.fontFamilySelect.isSome ∧ s.fontSizeRange.isSome ∧
      s.lineHeightRange.isSome ∧ s.showGuidesCheckbox.isSome) ∧
    (s'.fontSizeRange.isSome ∧ s'.lineHeightRange.isSome ∧ s'.fontFamilySelect.isSome) ∧
    s'.textDisplay = s.textDisplay ∧ s'.textContent = s.textContent ∧
    (s'.infoFontSize = s.infoFontSize ∧ s'.infoLineHeight = s.infoLineHeight ∧
      s'.infoBaseline = s.infoBaseline ∧ s'.infoXHeight = s.infoXHeight ∧
      s'.infoCapHeight = s.infoCapHeight ∧ s'.infoAscender = s.infoAscender ∧
      s'.infoDescender = s.infoDescender) := by
  unfold setupEventListeners at h
  simp only [enter, bind_eq_ok, addEventListener, deref_eq_ok, pure, Except.pure,
    Except.ok.injEq, exists_eq_right, exists_exists_and_eq_and] at h
  obtain ⟨e1, h1, e2, h2, e3, h3, e4, h4, e5, h5, rfl⟩ := h
  simp [h1, h2, h3, h4, h5]

theorem updateMetrics_inv (env : Env) (s s' : Inspector)
    (h : updateMetrics env s = Except.ok s') :
    (s.fontSizeRange.isSome ∧ s.lineHeightRange.isSome ∧ s.fontFamilySelect.isSome ∧
      s.textContent.isSome ∧ s.textDisplay.isSome) ∧
    (s.infoFontSize.isSome ∧ s.infoLineHeight.isSome ∧ s.infoBaseline.isSome ∧
      s.infoXHeight.isSome ∧ s.infoCapHeight.isSome ∧ s.infoAscender.isSome ∧
      s.infoDescender.isSome) ∧
    s'.trace = s.trace ++ [Call.updateMetrics, Call.calculateFontMetrics,
      Call.updateInfoDisplay, Call.resizeCanvas, Call.drawMetrics] := by
  unfold updateMetrics at h
  simp only [bind_eq_ok, deref_eq_ok, pure, Except.pure, Except.ok.injEq, exists_eq_right,
    exists_exists_and_eq_and] at h
  obtain ⟨a, h1, a1, h2, a2, h3, a3, h4, s1, hcalc, s2, hinfo, s3, hres, hdraw⟩ := h
  obtain ⟨m, rfl⟩ := calculateFontMetrics_inv _ _ _ _ _ _ hcalc
  obtain ⟨hi, hd, ht2⟩ := updateInfoDisplay_inv _ _ hinfo
  obtain ⟨hr, ht3⟩ := resizeCanvas_inv _ _ hres
  have ht4 := drawMetrics_trace _ _ hdraw
  simp only [enter] at h1 h2 h3 h4 hi hd ht2 hr ht3 ht4
  rw [hd] at hr
  refine ⟨⟨?_, ?_, ?_, ?_, hr⟩, hi, ?_⟩
  · simp [h1]
  · simp [h2]
  · simp [h3]
  · simp [h4]
  · rw [ht4, ht3, ht2]
    simp

/-- A construction that completes has found these fifteen elements. -/
theorem constructor_inv (env : Env) (s : Inspector) (h : constructor env = Except.ok s) :
    ∀ id ∈ ["metrics-canvas", "text-display", "text-content", "sample-text", "font-family",
      "font-size", "line-height", "show-guides", "info-font-size", "info-line-height",
      "info-baseline", "info-xheight", "info-capheight", "info-ascender", "info-descender"],
      (env.getElementById id).isSome := by
  unfold constructor init at h
  simp only [bind_eq_ok, deref_eq_ok, pure, Except.pure, Except.ok.injEq] at h
  obtain ⟨canvas, hcanvas, s1, hsetup, s2, hupdate, s3, _, _⟩ := h
  obtain ⟨⟨q1, q2, q3, q4, q5⟩, -, hd, hc, i1, i2, i3, i4, i5, i6, i7⟩ :=
    setupEventListeners_inv _ _ hsetup
  obtain ⟨⟨-, -, -, u4, u5⟩, ⟨j1, j2, j3, j4, j5, j6, j7⟩, -⟩ := updateMetrics_inv _ _ _ hupdate
  rw [hd] at u5
  rw [hc] at u4
  rw [i1] at j1
  rw [i2] at j2
  rw [i3] at j3
  rw [i4] at j4
  rw [i5] at j5
  rw [i6] at j6
  rw [i7] at j7
  simp only [enter] at q1 q2 q3 q4 q5 u4 u5 j1 j2 j3 j4 j5 j6 j7
  intro id hid
  simp only [List.mem_cons, List.mem_singleton, List.mem_nil_iff, or_false] at hid
  rcases hid with rfl | rfl | rfl | rfl | rfl | rfl | rfl | rfl | rfl | rfl | rfl | rfl |
    rfl | rfl | rfl
  · simp [hcanvas]
  all_goals assumption

/-- `drawMetrics` returns whenever the context is present and, with the guides on, the text
element and the canvas parent are. -/
theorem drawMetrics_total (s : Inspector) (c : Context2D) (hc : s.ctx = some c)
    (hvis : s.showGuides = true → s.textContent.isSome ∧ s.canvas.parentElement.isSome) :
    ∃ s', drawMetrics s = Except.ok s' ∧ s'.showGuides = s.showGuides ∧
      s'.metrics = s.metrics ∧ s'.canvas = s.canvas := by
  unfold drawMetrics
  rcases hg : s.showGuides
  · simp [hc, hg, deref, enter, bind, Except.bind, pure, Except.pure]
  · obtain ⟨h1, h2⟩ := hvis hg
    obtain ⟨t, ht⟩ := Option.isSome_iff_exists.mp h1
    obtain ⟨p, hp⟩ := Option.isSome_iff_exists.mp h2
    rcases hm : s.metrics with _ | m <;>
      simp [hc, hg, ht, hp, hm, deref, enter, bind, Except.bind, pure, Except.pure]

/-- The guide-visibility handler returns, having called `drawMetrics` and nothing else. -/
theorem showGuidesChange_ok (env : Env) (s : Inspector) (cb : Element) (c : Context2D)
    (hcb : s.showGuidesCheckbox = some cb) (hc : s.ctx = some c)
    (hvis : cb.checked = true → s.textContent.isSome ∧ s.canvas.parentElement.isSome) :
    ∃ s', runHandler env Handler.showGuidesChange s = Except.ok s' ∧
      s'.showGuides = cb.checked ∧ s'.trace = s.trace ++ [Call.drawMetrics] ∧
      s'.metrics = s.metrics ∧ s'.canvas = s.canvas := by
  obtain ⟨s', h, h1, h2, h3⟩ := drawMetrics_total { s with showGuides := cb.checked } c hc hvis
  have ht := drawMetrics_trace _ _ h
  have hrun : runHandler env Handler.showGuidesChange s = Except.ok s' := by
    simp only [runHandler, hcb, deref, bind, Except.bind]
    simpa only [hcb] using h
  exact ⟨s', hrun, h1, ht, h2, h3⟩

/-! ## The claims -/

/-- C2: the stored lineHeight is fontSize × lineHeightMultiplier exactly, whatever the
measurer reports (for every font size and multiplier, the positive ones included); 32 with
1.5 gives 48 and 16 with 1.5 gives 24. -/
theorem calculateFontMetrics_lineHeight (env : Env) (s : Inspector) (fontSize : Int)
    (lineHeight : ℚ) (fontFamily : String) (tempCtx : Context2D)
    (h : env.createCanvas.context2d = some tempCtx) :
    ∃ s' m, calculateFontMetrics env s fontSize lineHeight fontFamily = Except.ok s' ∧
      s'.metrics = some m ∧ m.lineHeight = (fontSize : ℚ) * lineHeight ∧
      (fontSize = 32 → lineHeight = 3 / 2 → m.lineHeight = 48) ∧
      (fontSize = 16 → lineHeight = 3 / 2 → m.lineHeight = 24) := by
  refine ⟨_, _, calculateFontMetrics_ok env s fontSize lineHeight fontFamily tempCtx h, rfl,
    rfl, ?_, ?_⟩
  · rintro rfl rfl
    norm_num
  · rintro rfl rfl
    norm_num

/-- C2 on the sample page: 32 × 1.5 = 48 and 16 × 1.5 = 24. -/
theorem calculateFontMetrics_lineHeight_witness :
    (∃ s' m, calculateFontMetrics sampleEnv sampleInspector 32 (3 / 2) "serif" = Except.ok s' ∧
      s'.metrics = some m ∧ m.lineHeight = 48) ∧
    (∃ s' m, calculateFontMetrics sampleEnv sampleInspector 16 (3 / 2) "serif" = Except.ok s' ∧
      s'.metrics = some m ∧ m.lineHeight = 24) := by
  constructor
  · obtain ⟨s', m, h1, h2, -, h3, -⟩ :=
      calculateFontMetrics_lineHeight sampleEnv sampleInspector 32 (3 / 2) "serif"
        freshContext rfl
    exact ⟨s', m, h1, h2, h3 rfl rfl⟩
  · obtain ⟨s', m, h1, h2, -, -, h3⟩ :=
      calculateFontMetrics_lineHeight sampleEnv sampleInspector 16 (3 / 2) "serif"
        freshContext rfl
    exact ⟨s', m, h1, h2, h3 rfl rfl⟩

/-- C10: for a positive font size, a positive multiplier and a measurer that reports
non-negative ascents and descents, the stored record has fontSize > 0, lineHeight ≥ 0 and
ascender, descender, capHeight and xHeight all ≥ 0. -/
theorem calculateFontMetrics_nonneg (env : Env) (s : Inspector) (fontSize : Int)
    (lineHeight : ℚ) (fontFamily : String) (tempCtx : Context2D)
    (h : env.createCanvas.context2d = some tempCtx)
    (hSize : 0 < fontSize) (hMultiplier : 0 < lineHeight)
    (hMeasure : ∀ font textBaseline text,
      0 ≤ (env.measureText font textBaseline text).actualBoundingBoxAscent ∧
      0 ≤ (env.measureText font textBaseline text).actualBoundingBoxDescent) :
    ∃ s' m, calculateFontMetrics env s fontSize lineHeight fontFamily = Except.ok s' ∧
      s'.metrics = some m ∧ 0 < m.fontSize ∧ 0 ≤ m.lineHeight ∧ 0 ≤ m.ascender ∧
      0 ≤ m.descender ∧ 0 ≤ m.capHeight ∧ 0 ≤ m.xHeight := by
  refine ⟨_, _, calculateFontMetrics_ok env s fontSize lineHeight fontFamily tempCtx h, rfl,
    hSize, ?_, (hMeasure _ _ _).1, (hMeasure _ _ _).2, (hMeasure _ _ _).1,
    (hMeasure _ _ _).1⟩
  have : (0 : ℚ) < fontSize := by exact_mod_cast hSize
  exact le_of_lt (mul_pos this hMultiplier)

/-- C10 on the sample page, whose measurer reports non-negative boxes. -/
theorem calculateFontMetrics_nonneg_witness :
    ∃ s' m, calculateFontMetrics sampleEnv sampleInspector 32 (3 / 2) "serif" = Except.ok s' ∧
      s'.metrics = some m ∧ 0 < m.fontSize ∧ 0 ≤ m.lineHeight ∧ 0 ≤ m.ascender ∧
      0 ≤ m.descender ∧ 0 ≤ m.capHeight ∧ 0 ≤ m.xHeight :=
  calculateFontMetrics_nonneg sampleEnv sampleInspector 32 (3 / 2) "serif" freshContext rfl
    (by decide) (by norm_num) (by
      intro font textBaseline text
      simp only [sampleEnv, sampleMeasure]
      split_ifs <;> norm_num)

/-- C4: with the guides off, `drawMetrics` clears the whole overlay surface (the rectangle
from the origin to the canvas width and height) and paints nothing else: no stroke and no
label, whatever the metrics record and the layout are. -/
theorem drawMetrics_guides_off_clears (s : Inspector) (c : Context2D)
    (hg : s.showGuides = false) (hc : s.ctx = some c) :
    ∃ s' c', drawMetrics s = Except.ok s' ∧ s'.ctx = some c' ∧ s'.canvas = s.canvas ∧
      c'.painted = c.painted ++ [Painted.clearRect 0 0 s.canvas.width s.canvas.height] ∧
      (c'.painted.drop c.painted.length).filter Painted.isStroke = [] ∧
      (c'.painted.drop c.painted.length).filter Painted.isLabel = [] := by
  refine ⟨_, _, drawMetrics_clear_only s c hg hc, rfl, rfl, rfl, ?_, ?_⟩ <;>
    simp [Context2D.clearRect, enter, Painted.isStroke, Painted.isLabel]

/-- C4 on the sample page with the guides switched off. -/
theorem drawMetrics_guides_off_clears_witness :
    ∃ s' c', drawMetrics { sampleInspector with showGuides := false } = Except.ok s' ∧
      s'.ctx = some c' ∧ s'.canvas = sampleCanvas ∧
      c'.painted = freshContext.painted ++ [Painted.clearRect 0 0 300 150] ∧
      (c'.painted.drop freshContext.painted.length).filter Painted.isStroke = [] ∧
      (c'.painted.drop freshContext.painted.length).filter Painted.isLabel = [] :=
  drawMetrics_guides_off_clears { sampleInspector with showGuides := false } freshContext
    rfl rfl

/-- C5: with the guides on, `drawMetrics` paints exactly seven strokes, each one horizontal
segment, and exactly five labels; the stroke labelled Baseline lies strictly between the
stroke labelled Ascender and the stroke labelled Descender whenever ascender and descender
are positive. -/
theorem drawMetrics_guides_on_counts (s : Inspector) (c : Context2D) (t : Element)
    (p : Rect) (m : Metrics) (hg : s.showGuides = true) (hc : s.ctx = some c)
    (ht : s.textContent = some t) (hp : s.canvas.parentElement = some p)
    (hm : s.metrics = some m) :
    ∃ s' c' drawn, drawMetrics s = Except.ok s' ∧ s'.ctx = some c' ∧
      c'.painted = c.painted ++ drawn ∧
      (drawn.filter Painted.isStroke).length = 7 ∧
      (drawn.filter Painted.isLabel).length = 5 ∧
      ∃ yTop yBottom yAscender yCapHeight yXHeight yBaseline yDescender : ℚ,
        horizontalStrokes drawn =
          [(yTop, "#95a5a6"), (yBottom, "#95a5a6"), (yAscender, "#9b59b6"),
           (yCapHeight, "#27ae60"), (yXHeight, "#3498db"), (yBaseline, "#e74c3c"),
           (yDescender, "#f39c12")] ∧
        labels drawn =
          [("Ascender", yAscender, "#9b59b6"), ("Cap Height", yCapHeight, "#27ae60"),
           ("X-Height", yXHeight, "#3498db"), ("Baseline", yBaseline, "#e74c3c"),
           ("Descender", yDescender, "#f39c12")] ∧
        (0 < m.ascender → 0 < m.descender →
          yAscender < yBaseline ∧ yBaseline < yDescender) := by
  obtain ⟨c', h1, h2⟩ := drawMetrics_painted s c t p m hg hc ht hp hm
  refine ⟨_, c', _, h1, rfl, h2, ?_, ?_,
    t.boundingClientRect.top - p.top,
    t.boundingClientRect.top - p.top + m.lineHeight,
    t.boundingClientRect.top - p.top + m.ascender - m.ascender,
    t.boundingClientRect.top - p.top + m.ascender - m.capHeight,
    t.boundingClientRect.top - p.top + m.ascender - m.xHeight,
    t.boundingClientRect.top - p.top + m.ascender,
    t.boundingClientRect.top - p.top + m.ascender + m.descender, ?_, ?_, ?_⟩
  · simp [guidesPainted, Painted.isStroke]
  · simp [guidesPainted, Painted.isLabel]
  · simp only [guidesPainted, horizontalStrokes, List.filterMap_cons, Painted.horizontalStroke?,
      if_true, List.filterMap_nil]
  · simp only [guidesPainted, labels, List.filterMap_cons, Painted.label?, List.filterMap_nil]
  · intro ha hd
    constructor <;> linarith

/-- C5 on the sample page. -/
theorem drawMetrics_guides_on_counts_witness :
    ∃ s' c' drawn, drawMetrics sampleInspector = Except.ok s' ∧ s'.ctx = some c' ∧
      c'.painted = freshContext.painted ++ drawn ∧
      (drawn.filter Painted.isStroke).length = 7 ∧
      (drawn.filter Painted.isLabel).length = 5 ∧
      ∃ yTop yBottom yAscender yCapHeight yXHeight yBaseline yDescender : ℚ,
        horizontalStrokes drawn =
          [(yTop, "#95a5a6"), (yBottom, "#95a5a6"), (yAscender, "#9b59b6"),
           (yCapHeight, "#27ae60"), (yXHeight, "#3498db"), (yBaseline, "#e74c3c"),
           (yDescender, "#f39c12")] ∧
        labels drawn =
          [("Ascender", yAscender, "#9b59b6"), ("Cap Height", yCapHeight, "#27ae60"),
           ("X-Height", yXHeight, "#3498db"), ("Baseline", yBaseline, "#e74c3c"),
           ("Descender", yDescender, "#f39c12")] ∧
        (0 < sampleMetrics.ascender → 0 < sampleMetrics.descender →
          yAscender < yBaseline ∧ yBaseline < yDescender) :=
  drawMetrics_guides_on_counts sampleInspector freshContext sampleTextContent
    { left := 0, top := 0, width := 800, height := 200 } sampleMetrics rfl rfl rfl rfl rfl

/-- C6: with the guides on, after the clear `drawMetrics` paints exactly: the two dashed
gray line-height boundaries (width 1, dash [5,5]) at `offsetY` and `offsetY + lineHeight`,
then the solid strokes at `baselineY - ascender`, `baselineY - capHeight`,
`baselineY - xHeight` (width 2 each), `baselineY` (width 3) and `baselineY + descender`
(width 2), every stroke from `offsetX` to `offsetX + w`; then one label per solid stroke at
`x = offsetX + w + 10`, at the `y` and in the colour of its stroke. The five colours are
pairwise different. -/
theorem drawMetrics_guides_on_sequence (s : Inspector) (c : Context2D) (t : Element)
    (p : Rect) (m : Metrics) (offsetX offsetY w baselineY : ℚ)
    (hg : s.showGuides = true) (hc : s.ctx = some c)
    (ht : s.textContent = some t) (hp : s.canvas.parentElement = some p)
    (hm : s.metrics = some m)
    (hX : offsetX = t.boundingClientRect.left - p.left)
    (hY : offsetY = t.boundingClientRect.top - p.top)
    (hw : w = t.boundingClientRect.width)
    (hb : baselineY = offsetY + m.ascender) :
    ∃ s' c' drawn, drawMetrics s = Except.ok s' ∧ s'.ctx = some c' ∧
      c'.painted = c.painted ++
        Painted.clearRect 0 0 s.canvas.width s.canvas.height :: drawn ∧
      drawn =
        [ Painted.stroke [PathCmd.moveTo offsetX offsetY, PathCmd.lineTo (offsetX + w) offsetY]
            "#95a5a6" 1 [5, 5],
          Painted.stroke [PathCmd.moveTo offsetX (offsetY + m.lineHeight),
            PathCmd.lineTo (offsetX + w) (offsetY + m.lineHeight)] "#95a5a6" 1 [5, 5],
          Painted.stroke [PathCmd.moveTo offsetX (baselineY - m.ascender),
            PathCmd.lineTo (offsetX + w) (baselineY - m.ascender)] "#9b59b6" 2 [],
          Painted.stroke [PathCmd.moveTo offsetX (baselineY - m.capHeight),
            PathCmd.lineTo (offsetX + w) (baselineY - m.capHeight)] "#27ae60" 2 [],
          Painted.stroke [PathCmd.moveTo offsetX (baselineY - m.xHeight),
            PathCmd.lineTo (offsetX + w) (baselineY - m.xHeight)] "#3498db" 2 [],
          Painted.stroke [PathCmd.moveTo offsetX baselineY,
            PathCmd.lineTo (offsetX + w) baselineY] "#e74c3c" 3 [],
          Painted.stroke [PathCmd.moveTo offsetX (baselineY + m.descender),
            PathCmd.lineTo (offsetX + w) (baselineY + m.descender)] "#f39c12" 2 [],
          Painted.fillText "Ascender" (offsetX + w + 10) (baselineY - m.ascender)
            "12px sans-serif" "#9b59b6" "middle",
          Painted.fillText "Cap Height" (offsetX + w + 10) (baselineY - m.capHeight)
            "12px sans-serif" "#27ae60" "middle",
          Painted.fillText "X-Height" (offsetX + w + 10) (baselineY - m.xHeight)
            "12px sans-serif" "#3498db" "middle",
          Painted.fillText "Baseline" (offsetX + w + 10) baselineY
            "12px sans-serif" "#e74c3c" "middle",
          Painted.fillText "Descender" (offsetX + w + 10) (baselineY + m.descender)
            "12px sans-serif" "#f39c12" "middle" ] ∧
      ((labels drawn).map fun l => l.2.2).Nodup ∧
      ((horizontalStrokes drawn).drop 2).map (fun l => l.2) = (labels drawn).map fun l => l.2.2
    := by
  obtain ⟨c', h1, h2⟩ := drawMetrics_painted s c t p m hg hc ht hp hm
  subst hX hY hw hb
  refine ⟨_, c', _, h1, rfl, h2, ?_, ?_, ?_⟩
  · simp only [guidesPainted]
  · simp only [guidesPainted, labels, List.filterMap_cons, Painted.label?, List.filterMap_nil,
      List.map]
    decide
  · simp only [guidesPainted, labels, horizontalStrokes, List.filterMap_cons, Painted.label?,
      Painted.horizontalStroke?, if_true, List.filterMap_nil, List.map, List.drop]

/-- C6 on the sample page: the twelve draw commands with their numbers. -/
theorem drawMetrics_guides_on_sequence_witness :
    ∃ s' c' drawn, drawMetrics sampleInspector = Except.ok s' ∧ s'.ctx = some c' ∧
      c'.painted = freshContext.painted ++ Painted.clearRect 0 0 300 150 :: drawn ∧
      drawn =
        [ Painted.stroke [PathCmd.moveTo 40 60, PathCmd.lineTo 340 60] "#95a5a6" 1 [5, 5],
          Painted.stroke [PathCmd.moveTo 40 84, PathCmd.lineTo 340 84] "#95a5a6" 1 [5, 5],
          Painted.stroke [PathCmd.moveTo 40 60, PathCmd.lineTo 340 60] "#9b59b6" 2 [],
          Painted.stroke [PathCmd.moveTo 40 (607 / 10), PathCmd.lineTo 340 (607 / 10)]
            "#27ae60" 2 [],
          Painted.stroke [PathCmd.moveTo 40 (641 / 10), PathCmd.lineTo 340 (641 / 10)]
            "#3498db" 2 [],
          Painted.stroke [PathCmd.moveTo 40 (723 / 10), PathCmd.lineTo 340 (723 / 10)]
            "#e74c3c" 3 [],
          Painted.stroke [PathCmd.moveTo 40 (757 / 10), PathCmd.lineTo 340 (757 / 10)]
            "#f39c12" 2 [],
          Painted.fillText "Ascender" 350 60 "12px sans-serif" "#9b59b6" "middle",
          Painted.fillText "Cap Height" 350 (607 / 10) "12px sans-serif" "#27ae60" "middle",
          Painted.fillText "X-Height" 350 (641 / 10) "12px sans-serif" "#3498db" "middle",
          Painted.fillText "Baseline" 350 (723 / 10) "12px sans-serif" "#e74c3c" "middle",
          Painted.fillText "Descender" 350 (757 / 10) "12px sans-serif" "#f39c12" "middle" ]
    := by
  obtain ⟨s', c', drawn, h1, h2, h3, h4, -, -⟩ :=
    drawMetrics_guides_on_sequence sampleInspector freshContext sampleTextContent
      { left := 0, top := 0, width := 800, height := 200 } sampleMetrics 40 60 300 (723 / 10)
      rfl rfl rfl rfl rfl (by norm_num [sampleTextContent, blankElement])
      (by norm_num [sampleTextContent, blankElement])
      (by norm_num [sampleTextContent, blankElement]) (by norm_num [sampleMetrics])
  refine ⟨s', c', drawn, h1, h2, h3, ?_⟩
  rw [h4]
  norm_num [sampleMetrics]

/-- C7, as stated, fails: on the sample page the guide-visibility handler completes with
the trace `[drawMetrics]`; `resizeCanvas` is not called. -/
theorem showGuidesChange_skips_resize :
    ∃ s', runHandler sampleEnv Handler.showGuidesChange sampleInspector = Except.ok s' ∧
      s'.trace = [Call.drawMetrics] ∧
      s'.trace ≠ [Call.resizeCanvas, Call.drawMetrics] := by
  obtain ⟨s', h, -, ht, -, -⟩ := showGuidesChange_ok sampleEnv sampleInspector
    { blankElement with checked := true } freshContext rfl rfl (fun _ => ⟨rfl, rfl⟩)
  refine ⟨s', h, ht, ?_⟩
  rw [ht]
  decide

/-- C7, amended: the guide-visibility handler stores the checkbox state and calls
`drawMetrics` only: its trace is exactly `[drawMetrics]`, with no `calculateFontMetrics`, no
`updateInfoDisplay` and no `resizeCanvas` call, and the metrics record and the canvas are
left as they were. `resizeCanvas` precedes `drawMetrics` in the window-resize handler
(trace `[resizeCanvas, drawMetrics]`) and in `updateMetrics`, which the parameter handlers
call. -/
theorem showGuidesChange_trace (env : Env) (s : Inspector) (cb : Element) (c : Context2D)
    (hcb : s.showGuidesCheckbox = some cb) (hc : s.ctx = some c)
    (hvis : cb.checked = true → s.textContent.isSome ∧ s.canvas.parentElement.isSome) :
    (∃ s', runHandler env Handler.showGuidesChange s = Except.ok s' ∧
      s'.showGuides = cb.checked ∧ s'.trace = s.trace ++ [Call.drawMetrics] ∧
      s'.metrics = s.metrics ∧ s'.canvas = s.canvas) ∧
    (∀ s', runHandler env Handler.windowResize s = Except.ok s' →
      s'.trace = s.trace ++ [Call.resizeCanvas, Call.drawMetrics]) ∧
    (∀ s', updateMetrics env s = Except.ok s' →
      s'.trace = s.trace ++ [Call.updateMetrics, Call.calculateFontMetrics,
        Call.updateInfoDisplay, Call.resizeCanvas, Call.drawMetrics]) := by
  refine ⟨showGuidesChange_ok env s cb c hcb hc hvis, ?_, ?_⟩
  · intro s' h
    simp only [runHandler, bind_eq_ok] at h
    obtain ⟨s1, h1, h2⟩ := h
    rw [drawMetrics_trace _ _ h2, (resizeCanvas_inv _ _ h1).2]
    simp
  · intro s' h
    exact (updateMetrics_inv env s s' h).2.2

/-- C7 on the sample page: the traces of the toggle and of the window-resize handler. -/
theorem showGuidesChange_trace_witness :
    (∃ s', runHandler sampleEnv Handler.showGuidesChange sampleInspector = Except.ok s' ∧
      s'.showGuides = true ∧ s'.trace = sampleInspector.trace ++ [Call.drawMetrics] ∧
      s'.metrics = sampleInspector.metrics ∧ s'.canvas = sampleInspector.canvas) ∧
    (∃ s', runHandler sampleEnv Handler.windowResize sampleInspector = Except.ok s' ∧
      s'.trace = sampleInspector.trace ++ [Call.resizeCanvas, Call.drawMetrics]) := by
  obtain ⟨h1, h2, -⟩ := showGuidesChange_trace sampleEnv sampleInspector
    { blankElement with checked := true } freshContext rfl rfl (fun _ => ⟨rfl, rfl⟩)
  refine ⟨h1, ?_⟩
  have hok : ∃ s', runHandler sampleEnv Handler.windowResize sampleInspector = Except.ok s' :=
    ⟨_, rfl⟩
  obtain ⟨s', hs⟩ := hok
  exact ⟨s', hs, h2 s' hs⟩

/-- C8, as stated, fails: with `font-size-value` absent, and likewise with
`line-height-value` absent, and every other element present, constructing the inspector
completes normally. -/
theorem constructor_without_value_display :
    ((sampleEnv.without "font-size-value").getElementById "font-size-value" = none ∧
      (∀ id ∈ ["metrics-canvas", "text-display", "text-content", "sample-text", "font-family",
          "font-size", "line-height", "show-guides", "line-height-value", "info-font-size",
          "info-line-height", "info-baseline", "info-xheight", "info-capheight",
          "info-ascender", "info-descender"],
        ((sampleEnv.without "font-size-value").getElementById id).isSome) ∧
      ∃ s, constructor (sampleEnv.without "font-size-value") = Except.ok s) ∧
    ((sampleEnv.without "line-height-value").getElementById "line-height-value" = none ∧
      (∀ id ∈ ["metrics-canvas", "text-display", "text-content", "sample-text", "font-family",
          "font-size", "line-height", "show-guides", "font-size-value", "info-font-size",
          "info-line-height", "info-baseline", "info-xheight", "info-capheight",
          "info-ascender", "info-descender"],
        ((sampleEnv.without "line-height-value").getElementById id).isSome) ∧
      ∃ s, constructor (sampleEnv.without "line-height-value") = Except.ok s) := by
  refine ⟨⟨rfl, by decide, _, rfl⟩, ⟨rfl, by decide, _, rfl⟩⟩

/-- C8, amended: if any one of the fifteen elements `metrics-canvas`, `text-display`,
`text-content`, `sample-text`, `font-family`, `font-size`, `line-height`, `show-guides`,
`info-font-size`, `info-line-height`, `info-baseline`, `info-xheight`, `info-capheight`,
`info-ascender`, `info-descender` is absent, constructing the inspector ends in a
TypeError. An absent `font-size-value` or `line-height-value` is met only later: the input
handler of the matching slider ends in a TypeError. -/
theorem constructor_fails_fast (env : Env) (id : String)
    (hid : id ∈ ["metrics-canvas", "text-display", "text-content", "sample-text",
      "font-family", "font-size", "line-height", "show-guides", "info-font-size",
      "info-line-height", "info-baseline", "info-xheight", "info-capheight", "info-ascender",
      "info-descender"])
    (h : env.getElementById id = none) :
    constructor env = Except.error Error.typeError ∧
    (∀ s : Inspector, s.fontSizeValue = none →
      runHandler env Handler.fontSizeInput s = Except.error Error.typeError) ∧
    (∀ s : Inspector, s.lineHeightValue = none →
      runHandler env Handler.lineHeightInput s = Except.error Error.typeError) := by
  refine ⟨?_, ?_, ?_⟩
  · apply error_of_not_ok
    intro s hs
    have := constructor_inv env s hs id hid
    simp [h] at this
  · intro s hs
    simp [runHandler, hs, deref, bind, Except.bind]
  · intro s hs
    simp [runHandler, hs, deref, bind, Except.bind]

/-- C8 on the sample page with `info-descender` taken out. -/
theorem constructor_fails_fast_witness :
    (sampleEnv.without "info-descender").getElementById "info-descender" = none ∧
    constructor (sampleEnv.without "info-descender") = Except.error Error.typeError :=
  ⟨rfl, (constructor_fails_fast (sampleEnv.without "info-descender") "info-descender"
    (by decide) rfl).1⟩

end FontMetricsInspector
